import Mathlib

/-!
Verification of the CASE registry client (`caseclient.py`).

The client is embedded shallowly.  Python values appearing in API traffic
are modelled by the `Json` type; Python exceptions become the `PyErr` type;
the mutable fields of the `CASEClient` instance (`client_id`,
`client_secret`, `access_token`) together with the log of network requests
issued so far form the state type `St`.  Every effectful method of the
source becomes an explicit state-passing function
`St → Except PyErr α × St`: the state is threaded through even on the error
path, so that the requests already issued remain observable when an
exception propagates (as in Python).  The network is an oracle
`Net := Nat → Request → Outcome` giving the outcome of the n-th HTTP call
of the run; an `Outcome` is either an HTTP response (status, parsed JSON
body, raw text) or a transport-level failure, which the `requests` library
surfaces as a raised exception.
-/

/-- JSON values, the shape of all API payloads handled by the client. -/
inductive Json where
  | null : Json
  | bool : Bool → Json
  | num : Int → Json
  | str : String → Json
  | arr : List Json → Json
  | obj : List (String × Json) → Json

/-- Python exceptions that the client code can raise: `sys.exit` (SystemExit),
`assert` failure, `requests.Response.raise_for_status` (HTTPError carrying the
status code and response body), a transport-level `requests` failure,
dictionary `KeyError`, `TypeError`, and `str.encode` failure. -/
inductive PyErr where
  | systemExit : Int → PyErr
  | assertionError : String → PyErr
  | httpError : Nat → String → PyErr
  | transportError : PyErr
  | keyError : String → PyErr
  | typeError : PyErr
  | unicodeEncodeError : PyErr

/-- One HTTP request as issued by the client: method, full URL, headers and
(for POST) the form data. -/
structure Request where
  method : String
  url : String
  headers : List (String × String)
  formData : List (String × String)
deriving DecidableEq

/-- Outcome of one network call: an HTTP response (status code, JSON body,
raw text body) or a transport-level failure (raised by `requests`). -/
inductive Outcome where
  | resp : Nat → Json → String → Outcome
  | transport : Outcome

/-- A received HTTP response. -/
structure Resp where
  status : Nat
  json : Json
  text : String

/-- `requests.Response.ok`: true iff the status code is below 400. -/
def Resp.ok (r : Resp) : Bool := r.status < 400

/-- The mutable state of a `CASEClient` instance (its three attributes,
`None` modelled as `Json.null`) together with the log of requests issued. -/
structure St where
  client_id : Json
  client_secret : Json
  access_token : Json
  calls : List Request

/-- The network oracle: outcome of the n-th network call of the run,
as a function of the request made. -/
def Net := Nat → Request → Outcome

/-- `BASE_URL` from the source. -/
def BASE_URL : String := "https://caseregistry.imsglobal.org/ims/case/v1p0"

/-- `CLIENTOKEN_ENDPOINT` from the source. -/
def CLIENTOKEN_ENDPOINT : String := "https://oauth2-case.imsglobal.org/oauth2server/clienttoken"

/-- `BEARERCHECK_ENDPOINT` from the source. -/
def BEARERCHECK_ENDPOINT : String := "https://oauth2-case.imsglobal.org/oauth2server/bearercheck"

/-- Python truthiness of a JSON value (`if x:`). -/
def pyTruthy : Json → Bool
  | Json.null => false
  | Json.bool b => b
  | Json.num n => n != 0
  | Json.str s => !(s == "")
  | Json.arr xs => !xs.isEmpty
  | Json.obj kvs => !kvs.isEmpty

/-- First-match lookup in a JSON object's field list (Python dict lookup;
a Python dict has no duplicate keys, so first-match is exact). -/
def lookupKvs : List (String × Json) → String → Option Json
  | [], _ => none
  | (k, v) :: rest, key => if k == key then some v else lookupKvs rest key

/-- Python subscript `data[key]`: `KeyError` when an object lacks the key,
`TypeError` when the value is not a dict. -/
def jsonGet : Json → String → Except PyErr Json
  | Json.obj kvs, key =>
    match lookupKvs kvs key with
    | some v => Except.ok v
    | none => Except.error (PyErr.keyError key)
  | _, _ => Except.error PyErr.typeError

/-- Python `list.extend(x)`: appends the elements of a list, the characters
of a string, or the keys of a dict; non-iterables raise `TypeError`. -/
def listExtend (documents : List Json) : Json → Except PyErr (List Json)
  | Json.arr xs => Except.ok (documents ++ xs)
  | Json.str s => Except.ok (documents ++ s.data.map (fun c => Json.str (String.mk [c])))
  | Json.obj kvs => Except.ok (documents ++ kvs.map (fun kv => Json.str kv.1))
  | _ => Except.error PyErr.typeError

/-- Python `str()` of a JSON value, as used in `"...{}".format(x)`.  Exact
for `None`, booleans, integers and strings (the only token shapes the API
contract produces); containers are rendered in a simplified list form. -/
def pyStr : Json → String
  | Json.null => "None"
  | Json.bool true => "True"
  | Json.bool false => "False"
  | Json.num n => toString n
  | Json.str s => s
  | Json.arr _ => "[...]"
  | Json.obj _ => "\x7b...\x7d"

/-- `str.encode("ascii")`: the byte values of the string when it is pure
ASCII, failure (UnicodeEncodeError) otherwise. -/
def asciiBytes (s : String) : Option (List Nat) :=
  if s.data.all (fun c => c.toNat < 128) then some (s.data.map Char.toNat) else none

/-- The base64 alphabet. -/
def b64chars : List Char :=
  "ABCDEFGHIJKLMNOPQRSTUVWXYZabcdefghijklmnopqrstuvwxyz0123456789+/".data

/-- Character for one 6-bit group. -/
def b64char (n : Nat) : Char := b64chars.getD n 'A'

/-- RFC 4648 base64 of a byte list, as `base64.b64encode` computes it. -/
def b64core : List Nat → List Char
  | [] => []
  | [a] => [b64char (a / 4), b64char (a % 4 * 16), '=', '=']
  | [a, b] => [b64char (a / 4), b64char (a % 4 * 16 + b / 16), b64char (b % 16 * 4), '=']
  | a :: b :: c :: rest =>
    b64char (a / 4) :: b64char (a % 4 * 16 + b / 16) ::
      b64char (b % 16 * 4 + c / 64) :: b64char (c % 64) :: b64core rest

/-- `base64.b64encode(bytes).decode("ascii")`. -/
def b64encode (bs : List Nat) : String := String.mk (b64core bs)

/-- Issue one network call: consult the oracle at the current call count,
log the request, and either return the response or raise the transport
failure (as `requests.get` / `requests.post` do). -/
def http (net : Net) (req : Request) (st : St) : Except PyErr Resp × St :=
  match net st.calls.length req with
  | Outcome.resp s j t =>
    (Except.ok ⟨s, j, t⟩, { st with calls := st.calls ++ [req] })
  | Outcome.transport =>
    (Except.error PyErr.transportError, { st with calls := st.calls ++ [req] })

/-- The two scope URIs requested by `CASEClient.obtain_access_token`. -/
def scopes_requested : List String :=
  ["http://purl.imsglobal.org/casenetwork/case/v1p0/scope/core.readonly",
   "http://purl.imsglobal.org/casenetwork/case/v1p0/scope/all.readonly"]

/-- The space-joined scope string. -/
def scope : String := String.intercalate " " scopes_requested

/-- URL built by `CASEClient.get`: `BASE_URL + path`, plus
`"?" + "&".join(key + "=" + str(val) ...)` when the params dict is
non-empty (query-parameter values are passed already stringified). -/
def buildUrl (path : String) (params : List (String × String)) : String :=
  let url := BASE_URL ++ path
  if params.isEmpty then url
  else url ++ "?" ++ String.intercalate "&" (params.map (fun kv => kv.1 ++ "=" ++ kv.2))

/-- The resource request that `CASEClient.get` issues for a path, params
and current token. -/
def resourceRequest (path : String) (params : List (String × String)) (tok : Json) : Request :=
  ⟨"GET", buildUrl path params, [("Authorization", "Bearer " ++ pyStr tok)], []⟩

/-- The liveness-check request issued for a given token. -/
def bearerRequest (tok : Json) : Request :=
  ⟨"GET", BEARERCHECK_ENDPOINT ++ "?token=" ++ pyStr tok, [], []⟩

/-- The token request that `CASEClient.obtain_access_token` sends for a
given byte encoding of `client_id + ":" + client_secret`. -/
def tokenRequest (bs : List Nat) : Request :=
  ⟨"POST", CLIENTOKEN_ENDPOINT,
   [("Authorization", "Basic " ++ b64encode bs)],
   [("grant_type", "client_credentials"), ("scope", scope)]⟩

/-- `CASEClient.is_authenticated`: GET the bearer-check endpoint with the
token as a query parameter and report `response.ok`. -/
def CASEClient.is_authenticated (net : Net) (st : St) : Except PyErr Bool × St :=
  match http net (bearerRequest st.access_token) st with
  | (Except.ok r, st1) => (if r.ok then (Except.ok true, st1) else (Except.ok false, st1))
  | (Except.error e, st1) => (Except.error e, st1)

/-- `CASEClient.obtain_access_token`: POST the token endpoint with
`grant_type=client_credentials`, the scope list, and a Basic-Auth header
`base64(client_id + ":" + client_secret)`; assert the response is ok
(raising an assertion failure carrying the response text otherwise) and
store the JSON field `access_token`. -/
def CASEClient.obtain_access_token (net : Net) (st : St) : Except PyErr Unit × St :=
  match st.client_id, st.client_secret with
  | Json.str cid, Json.str csec =>
    let header_str := cid ++ ":" ++ csec
    match asciiBytes header_str with
    | none => (Except.error PyErr.unicodeEncodeError, st)
    | some bs =>
      match http net (tokenRequest bs) st with
      | (Except.error e, st1) => (Except.error e, st1)
      | (Except.ok r, st1) =>
        if r.ok then
          match jsonGet r.json "access_token" with
          | Except.ok tok => (Except.ok (), { st1 with access_token := tok })
          | Except.error e => (Except.error e, st1)
        else
          (Except.error (PyErr.assertionError ("Failed to get access_token." ++ r.text)), st1)
  | _, _ => (Except.error PyErr.typeError, st)

/-- `requests.Response.raise_for_status`: raises `HTTPError` with the status
code and body exactly for status codes in [400, 600). -/
def raise_for_status (r : Resp) : Except PyErr Unit :=
  if 400 ≤ r.status ∧ r.status < 600 then Except.error (PyErr.httpError r.status r.text)
  else Except.ok ()

/-- Tail of `CASEClient.get` after the (possibly retried) response: return
the parsed JSON body when ok, otherwise `raise_for_status` (falling through
to Python's implicit `None` if it does not raise). -/
def finishGet (r : Resp) (st : St) : Except PyErr Json × St :=
  if r.ok then (Except.ok r.json, st)
  else
    match raise_for_status r with
    | Except.error e => (Except.error e, st)
    | Except.ok _ => (Except.ok Json.null, st)

/-- `CASEClient.get`: build the URL, GET it with a Bearer header; on 401 or
403 check token liveness and, when the token is dead, refresh it and retry
the GET once with the new token; finally return the body if ok, else raise. -/
def CASEClient.get (net : Net) (path : String) (params : List (String × String)) (st : St) :
    Except PyErr Json × St :=
  match http net (resourceRequest path params st.access_token) st with
  | (Except.error e, st1) => (Except.error e, st1)
  | (Except.ok r, st1) =>
    if r.status = 401 ∨ r.status = 403 then
      match CASEClient.is_authenticated net st1 with
      | (Except.error e, st2) => (Except.error e, st2)
      | (Except.ok live, st2) =>
        if live then finishGet r st2
        else
          match CASEClient.obtain_access_token net st2 with
          | (Except.error e, st3) => (Except.error e, st3)
          | (Except.ok _, st3) =>
            match http net (resourceRequest path params st3.access_token) st3 with
            | (Except.error e, st4) => (Except.error e, st4)
            | (Except.ok r2, st4) => finishGet r2 st4
    else finishGet r st1

/-- `chunk_size` from `CASEClient.get_documents`. -/
def chunk_size : Nat := 50

/-- `max_requests` from `CASEClient.get_documents`. -/
def max_requests : Nat := 10

/-- `CFDocuments_endpoint` from `CASEClient.get_documents`. -/
def CFDocuments_endpoint : String := "/CFDocuments"

/-- The params dict built on iteration `counter` of `CASEClient.get_documents`
(values already passed through `str`). -/
def pageParams (counter : Nat) : List (String × String) :=
  [("offset", toString (chunk_size * counter)), ("limit", toString chunk_size),
   ("sort", "identifier"), ("orderBy", "asc")]

/-- The `while` loop of `CASEClient.get_documents`.  The loop runs while
`done == False and counter < max_requests`; since `counter` increases by one
on every continuing iteration, `fuel = max_requests - counter` decreases to
zero exactly when the guard fails, so the loop is the structural recursion
below. -/
def CASEClient.get_documents_loop (net : Net) (documents : List Json) (counter fuel : Nat) (st : St) :
    Except PyErr (List Json) × St :=
  match fuel with
  | 0 => (Except.ok documents, st)
  | Nat.succ fuel' =>
    match CASEClient.get net CFDocuments_endpoint (pageParams counter) st with
    | (Except.error e, st1) => (Except.error e, st1)
    | (Except.ok data, st1) =>
      match jsonGet data "CFDocuments" with
      | Except.error e => (Except.error e, st1)
      | Except.ok documents_chunk =>
        if pyTruthy documents_chunk then
          match listExtend documents documents_chunk with
          | Except.error e => (Except.error e, st1)
          | Except.ok documents2 => CASEClient.get_documents_loop net documents2 (counter + 1) fuel' st1
        else (Except.ok documents, st1)

/-- `CASEClient.get_documents`: fetch `/CFDocuments` in chunks of
`chunk_size`, stopping at the first empty chunk or after `max_requests`
pages, and return the accumulated list. -/
def CASEClient.get_documents (net : Net) (st : St) : Except PyErr (List Json) × St :=
  CASEClient.get_documents_loop net [] 0 max_requests st

/-- `CASEClient.set_credentials`: use the explicit arguments when both are
truthy; otherwise load both fields from the credential file when it exists
(the file contents are passed as `some json`, an absent file as `none`);
otherwise `sys.exit(-2)`. -/
def CASEClient.set_credentials (fs : Option Json) (client_id client_secret : Json) (st : St) :
    Except PyErr Unit × St :=
  if pyTruthy client_id && pyTruthy client_secret then
    (Except.ok (), { st with client_id := client_id, client_secret := client_secret })
  else
    match fs with
    | some credentials =>
      match jsonGet credentials "client_id" with
      | Except.error e => (Except.error e, st)
      | Except.ok cid =>
        let st1 := { st with client_id := cid }
        match jsonGet credentials "client_secret" with
        | Except.error e => (Except.error e, st1)
        | Except.ok csec => (Except.ok (), { st1 with client_secret := csec })
    | none => (Except.error (PyErr.systemExit (-2)), st)

/-- `CASEClient.__init__`: set credentials, obtain a token, probe liveness. -/
def CASEClient.init (net : Net) (fs : Option Json) (client_id client_secret : Json) (st : St) :
    Except PyErr Unit × St :=
  match CASEClient.set_credentials fs client_id client_secret st with
  | (Except.error e, st1) => (Except.error e, st1)
  | (Except.ok _, st1) =>
    match CASEClient.obtain_access_token net st1 with
    | (Except.error e, st2) => (Except.error e, st2)
    | (Except.ok _, st2) =>
      match CASEClient.is_authenticated net st2 with
      | (Except.error e, st3) => (Except.error e, st3)
      | (Except.ok _, st3) => (Except.ok (), st3)

/-- `p` is a prefix of the character data of `s`. -/
def strStartsWith (p s : String) : Bool := List.isPrefixOf p.data s.data

/-- A logged request that is a GET against the resource API base URL. -/
def isResourceGet (r : Request) : Bool := r.method == "GET" && strStartsWith BASE_URL r.url

/-- Number of resource GET requests in a request log. -/
def countResourceGets (l : List Request) : Nat := (l.filter isResourceGet).length

/-- A client state with given token and an empty request log. -/
def initSt (tok : Json) : St := ⟨Json.null, Json.null, tok, []⟩

/-- The network oracle of a fixed, stateless server: the outcome depends
only on the method and URL of the request, never on the call count. -/
def statelessNet (server : String → String → Outcome) : Net :=
  fun _ req => server req.method req.url

/-- A mock server for the C3 scenario: 401 on the resource, dead token,
successful refresh, successful retry. -/
def c3Net : Net := fun n _ =>
  if n = 0 then Outcome.resp 401 Json.null "unauthorized"
  else if n = 1 then Outcome.resp 404 Json.null "dead"
  else if n = 2 then Outcome.resp 200 (Json.obj [("access_token", Json.str "tokB")]) ""
  else Outcome.resp 200 (Json.num 7) "payload"

/-- A mock server for the C4 scenario: like C3 but the retried GET is
again rejected with 401. -/
def c4Net : Net := fun n _ =>
  if n = 0 then Outcome.resp 401 Json.null "unauthorized"
  else if n = 1 then Outcome.resp 404 Json.null "dead"
  else if n = 2 then Outcome.resp 200 (Json.obj [("access_token", Json.str "tokB")]) ""
  else Outcome.resp 401 Json.null "still denied"

/-- A concrete page of `n` distinct records for witness servers. -/
def c1Page (k n : Nat) : List Json :=
  (List.range n).map (fun i => Json.num (Int.ofNat (100 * k + i)))

/-- A mock server serving pages of sizes [50, 50, 23, 0]. -/
def c1Net : Net := fun n _ =>
  if n = 0 then Outcome.resp 200 (Json.obj [("CFDocuments", Json.arr (c1Page 0 50))]) ""
  else if n = 1 then Outcome.resp 200 (Json.obj [("CFDocuments", Json.arr (c1Page 1 50))]) ""
  else if n = 2 then Outcome.resp 200 (Json.obj [("CFDocuments", Json.arr (c1Page 2 23))]) ""
  else Outcome.resp 200 (Json.obj [("CFDocuments", Json.arr [])]) ""

/-- A mock server that always serves a full page of 50 records. -/
def c2Net : Net := fun _ _ =>
  Outcome.resp 200
    (Json.obj [("CFDocuments", Json.arr (List.replicate 50 (Json.num 1)))]) ""

/-- A fixed mock dataset server: one page with one record, then empty
pages, whatever the headers or call count. -/
def c9Server : String → String → Outcome := fun _ url =>
  if url = buildUrl CFDocuments_endpoint (pageParams 0) then
    Outcome.resp 200 (Json.obj [("CFDocuments", Json.arr [Json.num 5])]) ""
  else Outcome.resp 200 (Json.obj [("CFDocuments", Json.arr [])]) ""

/-- A boolean prefix test succeeds on any extension of the prefix itself. -/
theorem isPrefixOf_append_self (l m : List Char) : List.isPrefixOf l (l ++ m) = true := by
  induction l with
  | nil => cases m <;> rfl
  | cons a as ih => simp [List.isPrefixOf, ih]

/-- A successful boolean prefix test means the candidate equals the
corresponding take of the larger list. -/
theorem isPrefixOf_eq_take (l m : List Char) (h : List.isPrefixOf l m = true) :
    l = m.take l.length := by
  induction l generalizing m with
  | nil => simp
  | cons a as ih =>
    cases m with
    | nil => simp [List.isPrefixOf] at h
    | cons b bs =>
      simp only [List.isPrefixOf, Bool.and_eq_true, beq_iff_eq] at h
      obtain ⟨hab, h2⟩ := h
      simp [List.take, hab, ← ih bs h2]

/-- A string whose data extends the prefix data passes `strStartsWith`. -/
theorem strStartsWith_of_data (p s : String) (rest : List Char)
    (h : s.data = p.data ++ rest) : strStartsWith p s = true := by
  unfold strStartsWith
  rw [h]
  exact isPrefixOf_append_self _ _

/-- `strStartsWith` fails on any extension of a string whose prefix of the
right length already differs. -/
theorem strStartsWith_false_of_take_ne (p t x : String)
    (hlen : p.data.length ≤ t.data.length)
    (hne : ¬ p.data = t.data.take p.data.length) :
    strStartsWith p (t ++ x) = false := by
  unfold strStartsWith
  rw [String.data_append]
  by_contra hb
  rw [Bool.not_eq_false] at hb
  have heq := isPrefixOf_eq_take _ _ hb
  rw [List.take_append_of_le_length hlen] at heq
  exact hne heq

/-- Bearer-check URLs never count as resource URLs. -/
theorem not_resource_bearer (x : String) :
    strStartsWith BASE_URL (BEARERCHECK_ENDPOINT ++ "?token=" ++ x) = false :=
  strStartsWith_false_of_take_ne BASE_URL (BEARERCHECK_ENDPOINT ++ "?token=") x
    (by decide) (by decide)

/-- Every URL built by `get` starts with the resource base URL. -/
theorem strStartsWith_buildUrl (path : String) (params : List (String × String)) :
    strStartsWith BASE_URL (buildUrl path params) = true := by
  unfold buildUrl
  by_cases h : params.isEmpty
  · simp only [h, if_true]
    exact strStartsWith_of_data _ _ path.data (String.data_append _ _)
  · simp only [h, if_false]
    refine strStartsWith_of_data _ _
      (path.data ++ "?".data ++
        (String.intercalate "&" (params.map (fun kv => kv.1 ++ "=" ++ kv.2))).data) ?_
    simp [String.data_append, List.append_assoc]

/-- Claim C5, counterexample: on a network-level transport failure of the
liveness-check request, `CASEClient.is_authenticated` does not return a boolean at
all — the transport exception propagates — contradicting the claim that
any non-2xx outcome, including network-level failure, yields `false`
without an exception. -/
theorem c5_counterexample :
    (CASEClient.is_authenticated (fun _ _ => Outcome.transport) (initSt (Json.str "tok"))).1 =
      Except.error PyErr.transportError := rfl

/-- Claim C5, amended: whenever the liveness-check request yields an HTTP
response, `CASEClient.is_authenticated` returns a boolean that is true iff the status
code is below 400 (so also for 3xx responses, not only 2xx); whenever the
request fails at transport level, the exception propagates instead of
yielding `false`. -/
theorem c5_is_authenticated_amended (net : Net) (st : St) :
    (∀ s j t, (∀ r, net st.calls.length r = Outcome.resp s j t) →
      (CASEClient.is_authenticated net st).1 = Except.ok (decide (s < 400)))
    ∧ ((∀ r, net st.calls.length r = Outcome.transport) →
      (CASEClient.is_authenticated net st).1 = Except.error PyErr.transportError) := by
  constructor
  · intro s j t h
    simp only [CASEClient.is_authenticated, http, h, Resp.ok]
    by_cases hs : s < 400 <;> simp [hs]
  · intro h
    simp only [CASEClient.is_authenticated, http, h]

/-- Witness for C5's amended theorem at a concrete dead-token response. -/
theorem c5_is_authenticated_amended_witness :
    (CASEClient.is_authenticated (fun _ _ => Outcome.resp 404 Json.null "nope")
        (initSt (Json.str "tok"))).1 = Except.ok (decide ((404 : Nat) < 400)) :=
  (c5_is_authenticated_amended (fun _ _ => Outcome.resp 404 Json.null "nope")
    (initSt (Json.str "tok"))).1 404 Json.null "nope" (fun _ => rfl)

/-- Claim C7: `get` requests exactly `BASE_URL ++ path` when the params
dict is empty (or absent), and `BASE_URL ++ path ++ "?" ++` the
`&`-joined `key=value` pairs otherwise, with an
`Authorization: Bearer <token>` header; on a successful response it
returns the parsed JSON body. -/
theorem c7_get_url_and_success (net : Net) (path : String)
    (params : List (String × String)) (cid0 cs0 tok : Json)
    (s : Nat) (j : Json) (t : String)
    (hnet : ∀ r, net 0 r = Outcome.resp s j t) (hs : s < 400) :
    CASEClient.get net path params ⟨cid0, cs0, tok, []⟩ =
      (Except.ok j,
       ⟨cid0, cs0, tok,
        [⟨"GET",
          (if params.isEmpty then BASE_URL ++ path
           else BASE_URL ++ path ++ "?" ++
             String.intercalate "&" (params.map (fun kv => kv.1 ++ "=" ++ kv.2))),
          [("Authorization", "Bearer " ++ pyStr tok)], []⟩]⟩) := by
  have h401 : ¬(s = 401 ∨ s = 403) := by omega
  simp only [CASEClient.get, http, resourceRequest, buildUrl, finishGet, Resp.ok,
    List.length_nil]
  simp only [hnet]
  simp [h401, hs]

/-- Witness for C7 at a concrete successful call. -/
theorem c7_get_url_and_success_witness :
    CASEClient.get (fun _ _ => Outcome.resp 200 (Json.num 7) "")
        "/p" [("a", "1")] ⟨Json.null, Json.null, Json.str "tk", []⟩ =
      (Except.ok (Json.num 7),
       ⟨Json.null, Json.null, Json.str "tk",
        [⟨"GET",
          (if ([("a", "1")] : List (String × String)).isEmpty then BASE_URL ++ "/p"
           else BASE_URL ++ "/p" ++ "?" ++
             String.intercalate "&"
               (([("a", "1")] : List (String × String)).map
                 (fun kv => kv.1 ++ "=" ++ kv.2))),
          [("Authorization", "Bearer " ++ pyStr (Json.str "tk"))], []⟩]⟩) :=
  c7_get_url_and_success (fun _ _ => Outcome.resp 200 (Json.num 7) "") "/p"
    [("a", "1")] Json.null Json.null (Json.str "tk") 200 (Json.num 7) ""
    (fun _ => rfl) (by omega)

/-- Claim C8: with no usable explicit credential pair and no credential
file, the constructor path dies in `CASEClient.set_credentials` with `sys.exit(-2)`
before any network request: the state (and so the request log) is
untouched. -/
theorem c8_missing_credentials_exit (net : Net) (cid cs : Json) (st : St)
    (h : (pyTruthy cid && pyTruthy cs) = false) :
    CASEClient.init net none cid cs st = (Except.error (PyErr.systemExit (-2)), st) := by
  simp only [CASEClient.init, CASEClient.set_credentials, h, Bool.false_eq_true, if_false]

/-- Witness for C8: no arguments at all and no credential file. -/
theorem c8_missing_credentials_exit_witness :
    CASEClient.init (fun _ _ => Outcome.transport) none Json.null Json.null
        (initSt Json.null) =
      (Except.error (PyErr.systemExit (-2)), initSt Json.null) :=
  c8_missing_credentials_exit (fun _ _ => Outcome.transport) Json.null Json.null
    (initSt Json.null) rfl

/-- Claim C10: whenever the explicit pair is not fully supplied and truthy
(one argument missing, or an empty string among them), `CASEClient.set_credentials`
behaves exactly as if no explicit arguments had been given at all — it
falls back to the credential file, and exits with `-2` when the file is
absent. -/
theorem c10_explicit_credentials_all_or_nothing (fs : Option Json) (cid cs : Json)
    (st : St) (h : (pyTruthy cid && pyTruthy cs) = false) :
    CASEClient.set_credentials fs cid cs st = CASEClient.set_credentials fs Json.null Json.null st
    ∧ (fs = none →
        CASEClient.set_credentials fs cid cs st = (Except.error (PyErr.systemExit (-2)), st)) := by
  constructor
  · have h0 : (pyTruthy Json.null && pyTruthy Json.null) = false := rfl
    simp only [CASEClient.set_credentials, h, h0, Bool.false_eq_true, if_false]
  · rintro rfl
    simp only [CASEClient.set_credentials, h, Bool.false_eq_true, if_false]

/-- Witness for C10: an id without a secret, with a present credential
file. -/
theorem c10_explicit_credentials_all_or_nothing_witness :
    CASEClient.set_credentials (some (Json.obj [("client_id", Json.str "f"), ("client_secret", Json.str "g")]))
        (Json.str "onlyid") Json.null (initSt Json.null) =
      CASEClient.set_credentials (some (Json.obj [("client_id", Json.str "f"), ("client_secret", Json.str "g")]))
        Json.null Json.null (initSt Json.null) :=
  (c10_explicit_credentials_all_or_nothing
    (some (Json.obj [("client_id", Json.str "f"), ("client_secret", Json.str "g")]))
    (Json.str "onlyid") Json.null (initSt Json.null) rfl).1


/-- `jsonGet` can only fail with a key or type error, never with an
assertion failure. -/
theorem jsonGet_error_shape (j : Json) (key msg : String) :
    jsonGet j key ≠ Except.error (PyErr.assertionError msg) := by
  cases j <;> simp only [jsonGet] <;> try simp
  cases lookupKvs _ key <;> simp

/-- Claim C6: `obtain_access_token` POSTs the token endpoint with
`grant_type=client_credentials`, the fixed space-joined scope list and a
Basic-Auth header equal to the base64 of `client_id + ":" + client_secret`;
it fails with the assertion error carrying the response body exactly when
the response is unsuccessful, and on success stores exactly the value of
the JSON field `access_token`. -/
theorem c6_obtain_access_token (net : Net) (cid csec : String) (tok0 : Json)
    (bs : List Nat) (s : Nat) (j : Json) (t : String)
    (hascii : asciiBytes (cid ++ ":" ++ csec) = some bs)
    (hnet : ∀ r, net 0 r = Outcome.resp s j t) :
    (CASEClient.obtain_access_token net ⟨Json.str cid, Json.str csec, tok0, []⟩).2.calls =
        [tokenRequest bs]
    ∧ (¬ s < 400 →
        (CASEClient.obtain_access_token net ⟨Json.str cid, Json.str csec, tok0, []⟩).1 =
          Except.error (PyErr.assertionError ("Failed to get access_token." ++ t)))
    ∧ (s < 400 → ∀ tk, jsonGet j "access_token" = Except.ok tk →
        CASEClient.obtain_access_token net ⟨Json.str cid, Json.str csec, tok0, []⟩ =
          (Except.ok (), ⟨Json.str cid, Json.str csec, tk, [tokenRequest bs]⟩))
    ∧ (s < 400 → ∀ msg,
        (CASEClient.obtain_access_token net ⟨Json.str cid, Json.str csec, tok0, []⟩).1 ≠
          Except.error (PyErr.assertionError msg)) := by
  simp only [CASEClient.obtain_access_token, http, hascii, List.length_nil, tokenRequest]
  simp only [hnet, Resp.ok]
  refine ⟨?_, ?_, ?_, ?_⟩
  · by_cases hs : s < 400
    · simp only [hs, decide_eq_true_eq, if_pos hs]
      cases hj : jsonGet j "access_token" <;> simp
    · simp [hs]
  · intro hs
    simp [hs]
  · intro hs tk htk
    simp [hs, htk]
  · intro hs msg
    simp only [if_pos (show (decide (s < 400)) = true from by simp [hs])]
    cases hj : jsonGet j "access_token" with
    | ok tk => simp
    | error e =>
      intro he
      obtain rfl : e = PyErr.assertionError msg := by injection he
      exact jsonGet_error_shape j "access_token" msg hj

/-- Witness for C6: a concrete successful token exchange. -/
theorem c6_obtain_access_token_witness :
    CASEClient.obtain_access_token
        (fun _ _ => Outcome.resp 200 (Json.obj [("access_token", Json.str "tokB")]) "")
        ⟨Json.str "id", Json.str "sec", Json.null, []⟩ =
      (Except.ok (),
       ⟨Json.str "id", Json.str "sec", Json.str "tokB",
        [tokenRequest [105, 100, 58, 115, 101, 99]]⟩) :=
  (c6_obtain_access_token
      (fun _ _ => Outcome.resp 200 (Json.obj [("access_token", Json.str "tokB")]) "")
      "id" "sec" Json.null [105, 100, 58, 115, 101, 99] 200
      (Json.obj [("access_token", Json.str "tokB")]) "" rfl (fun _ => rfl)).2.2.1
    (by omega) (Json.str "tokB") rfl


/-- Evaluation of `http` when the oracle answers with a response. -/
theorem http_resp_eq (net : Net) (req : Request) (st : St) (s : Nat) (j : Json) (t : String)
    (h : ∀ r, net st.calls.length r = Outcome.resp s j t) :
    http net req st = (Except.ok ⟨s, j, t⟩, { st with calls := st.calls ++ [req] }) := by
  simp only [http, h]

/-- Evaluation of `is_authenticated` when the oracle answers with a
response: the reported liveness is `status < 400`. -/
theorem is_authenticated_resp_eq (net : Net) (st : St) (s : Nat) (j : Json) (t : String)
    (h : ∀ r, net st.calls.length r = Outcome.resp s j t) :
    CASEClient.is_authenticated net st =
      (Except.ok (decide (s < 400)),
       { st with calls := st.calls ++ [bearerRequest st.access_token] }) := by
  simp only [CASEClient.is_authenticated, bearerRequest]
  rw [http_resp_eq net _ st s j t h]
  by_cases hs : s < 400 <;> simp [Resp.ok, hs]

/-- Evaluation of `obtain_access_token` on a successful token response
carrying an `access_token` field. -/
theorem obtain_ok_eq (net : Net) (st : St) (cid csec : String) (bs : List Nat)
    (s : Nat) (j : Json) (t : String) (tok : Json)
    (hcid : st.client_id = Json.str cid) (hcsec : st.client_secret = Json.str csec)
    (hascii : asciiBytes (cid ++ ":" ++ csec) = some bs)
    (h : ∀ r, net st.calls.length r = Outcome.resp s j t) (hs : s < 400)
    (htok : jsonGet j "access_token" = Except.ok tok) :
    CASEClient.obtain_access_token net st =
      (Except.ok (),
       { st with access_token := tok, calls := st.calls ++ [tokenRequest bs] }) := by
  simp only [CASEClient.obtain_access_token, hcid, hcsec, hascii]
  rw [http_resp_eq net _ st s j t h]
  simp [Resp.ok, hs, htok, tokenRequest]
  exact ⟨hcid, hcsec⟩

/-- Evaluation of `obtain_access_token` on an unsuccessful token
response: the assertion fails, carrying the response text. -/
theorem obtain_fail_eq (net : Net) (st : St) (cid csec : String) (bs : List Nat)
    (s : Nat) (j : Json) (t : String)
    (hcid : st.client_id = Json.str cid) (hcsec : st.client_secret = Json.str csec)
    (hascii : asciiBytes (cid ++ ":" ++ csec) = some bs)
    (h : ∀ r, net st.calls.length r = Outcome.resp s j t) (hs : ¬ s < 400) :
    CASEClient.obtain_access_token net st =
      (Except.error (PyErr.assertionError ("Failed to get access_token." ++ t)),
       { st with calls := st.calls ++ [tokenRequest bs] }) := by
  simp only [CASEClient.obtain_access_token, hcid, hcsec, hascii]
  rw [http_resp_eq net _ st s j t h]
  simp [Resp.ok, hs, tokenRequest]
  exact ⟨hcid, hcsec⟩

/-- Evaluation of `get` when the first response is neither 401 nor 403 and
is successful: one request, body returned. -/
theorem get_ok_eq (net : Net) (path : String) (params : List (String × String)) (st : St)
    (s : Nat) (j : Json) (t : String)
    (h : ∀ r, net st.calls.length r = Outcome.resp s j t) (hs : s < 400) :
    CASEClient.get net path params st =
      (Except.ok j,
       { st with calls := st.calls ++ [resourceRequest path params st.access_token] }) := by
  have h401 : ¬(s = 401 ∨ s = 403) := by omega
  simp only [CASEClient.get, resourceRequest]
  rw [http_resp_eq net _ st s j t h]
  simp [finishGet, Resp.ok, h401, hs]

/-- Resource requests satisfy `isResourceGet`. -/
theorem isResourceGet_resourceRequest (path : String) (params : List (String × String))
    (tok : Json) : isResourceGet (resourceRequest path params tok) = true := by
  simp [isResourceGet, resourceRequest, strStartsWith_buildUrl]

/-- Liveness-check requests do not satisfy `isResourceGet`. -/
theorem isResourceGet_bearerRequest (tok : Json) :
    isResourceGet (bearerRequest tok) = false := by
  simp [isResourceGet, bearerRequest, not_resource_bearer]

/-- Token requests do not satisfy `isResourceGet` (they are POSTs). -/
theorem isResourceGet_tokenRequest (bs : List Nat) :
    isResourceGet (tokenRequest bs) = false := by
  simp [isResourceGet, tokenRequest]

/-- Evaluation of `get` through the full 401-dead-refresh-retry path: the
first response is 401/403, the liveness check reports the token dead, the
refresh succeeds, and the GET is retried once with the new token; the
result is `finishGet` applied to the retried response. -/
theorem get_retry_eq (net : Net) (path : String) (params : List (String × String)) (st : St)
    (cid csec : String) (bs : List Nat) (tok : Json)
    (s1 sl s2 s3 : Nat) (j1 jl j2 j3 : Json) (t1 tl t2 t3 : String)
    (h401 : s1 = 401 ∨ s1 = 403)
    (hn0 : ∀ r, net st.calls.length r = Outcome.resp s1 j1 t1)
    (hn1 : ∀ r, net (st.calls.length + 1) r = Outcome.resp sl jl tl)
    (hdead : ¬ sl < 400)
    (hcid : st.client_id = Json.str cid) (hcsec : st.client_secret = Json.str csec)
    (hascii : asciiBytes (cid ++ ":" ++ csec) = some bs)
    (hn2 : ∀ r, net (st.calls.length + 2) r = Outcome.resp s2 j2 t2) (hs2 : s2 < 400)
    (htok : jsonGet j2 "access_token" = Except.ok tok)
    (hn3 : ∀ r, net (st.calls.length + 3) r = Outcome.resp s3 j3 t3) :
    CASEClient.get net path params st =
      finishGet ⟨s3, j3, t3⟩
        ⟨st.client_id, st.client_secret, tok,
         st.calls ++
           [resourceRequest path params st.access_token,
            bearerRequest st.access_token, tokenRequest bs,
            resourceRequest path params tok]⟩ := by
  simp only [CASEClient.get]
  rw [http_resp_eq net _ st s1 j1 t1 hn0]
  simp only [if_pos h401]
  rw [is_authenticated_resp_eq net _ sl jl tl (by simpa using hn1)]
  simp only [show decide (sl < 400) = false from by simp [hdead], Bool.false_eq_true, if_false]
  rw [obtain_ok_eq net _ cid csec bs s2 j2 t2 tok (by simpa using hcid)
    (by simpa using hcsec) hascii (by simpa using hn2) hs2 htok]
  dsimp only
  rw [http_resp_eq net _ _ s3 j3 t3 (by simpa using hn3)]
  simp [resourceRequest, bearerRequest, List.append_assoc]

/-- Claim C3: a GET whose first response is 401/403, whose liveness probe
finds the token dead, and whose refresh succeeds, is retried exactly once
with the new token in the Bearer header; if the retried response is
successful the call returns its parsed body, raising nothing, with exactly
2 resource GET requests among the 4 network calls. -/
theorem c3_get_retry_success (net : Net) (path : String) (params : List (String × String))
    (cid csec : String) (tok0 : Json) (bs : List Nat) (tok : Json)
    (s1 sl s2 s3 : Nat) (j1 jl j2 j3 : Json) (t1 tl t2 t3 : String)
    (h401 : s1 = 401 ∨ s1 = 403)
    (hn0 : ∀ r, net 0 r = Outcome.resp s1 j1 t1)
    (hn1 : ∀ r, net 1 r = Outcome.resp sl jl tl) (hdead : ¬ sl < 400)
    (hascii : asciiBytes (cid ++ ":" ++ csec) = some bs)
    (hn2 : ∀ r, net 2 r = Outcome.resp s2 j2 t2) (hs2 : s2 < 400)
    (htok : jsonGet j2 "access_token" = Except.ok tok)
    (hn3 : ∀ r, net 3 r = Outcome.resp s3 j3 t3) (hs3 : s3 < 400) :
    (CASEClient.get net path params ⟨Json.str cid, Json.str csec, tok0, []⟩).1 =
        Except.ok j3
    ∧ countResourceGets
        (CASEClient.get net path params ⟨Json.str cid, Json.str csec, tok0, []⟩).2.calls = 2
    ∧ (CASEClient.get net path params ⟨Json.str cid, Json.str csec, tok0, []⟩).2.calls =
        [resourceRequest path params tok0, bearerRequest tok0, tokenRequest bs,
         resourceRequest path params tok] := by
  rw [get_retry_eq net path params ⟨Json.str cid, Json.str csec, tok0, []⟩ cid csec bs tok
    s1 sl s2 s3 j1 jl j2 j3 t1 tl t2 t3 h401 hn0 hn1 hdead rfl rfl hascii hn2 hs2 htok hn3]
  simp only [finishGet, Resp.ok]
  rw [if_pos (show decide (s3 < 400) = true from by simp [hs3])]
  refine ⟨rfl, ?_, by simp⟩
  simp [countResourceGets, List.filter, isResourceGet_resourceRequest,
    isResourceGet_bearerRequest, isResourceGet_tokenRequest]

/-- Witness for C3 at the concrete `c3Net` scenario. -/
theorem c3_get_retry_success_witness :
    (CASEClient.get c3Net "/p" [] ⟨Json.str "id", Json.str "sec", Json.str "tokA", []⟩).1 =
        Except.ok (Json.num 7)
    ∧ countResourceGets
        (CASEClient.get c3Net "/p" [] ⟨Json.str "id", Json.str "sec", Json.str "tokA", []⟩).2.calls = 2
    ∧ (CASEClient.get c3Net "/p" [] ⟨Json.str "id", Json.str "sec", Json.str "tokA", []⟩).2.calls =
        [resourceRequest "/p" [] (Json.str "tokA"), bearerRequest (Json.str "tokA"),
         tokenRequest [105, 100, 58, 115, 101, 99],
         resourceRequest "/p" [] (Json.str "tokB")] :=
  c3_get_retry_success c3Net "/p" [] "id" "sec" (Json.str "tokA")
    [105, 100, 58, 115, 101, 99] (Json.str "tokB")
    401 404 200 200 Json.null Json.null (Json.obj [("access_token", Json.str "tokB")]) (Json.num 7)
    "unauthorized" "dead" "" "payload"
    (Or.inl rfl) (fun _ => rfl) (fun _ => rfl) (by omega) rfl (fun _ => rfl) (by omega)
    rfl (fun _ => rfl) (by omega)

/-- Claim C4: a GET whose first response is 401/403, whose token is found
dead and refreshed, and whose retried response is again unsuccessful
(an HTTP error status), raises the HTTP error carrying the status code and
response body; the retry happens at most once, so only 2 resource GET
requests are ever made. -/
theorem c4_get_retry_failure (net : Net) (path : String) (params : List (String × String))
    (cid csec : String) (tok0 : Json) (bs : List Nat) (tok : Json)
    (s1 sl s2 s3 : Nat) (j1 jl j2 j3 : Json) (t1 tl t2 t3 : String)
    (h401 : s1 = 401 ∨ s1 = 403)
    (hn0 : ∀ r, net 0 r = Outcome.resp s1 j1 t1)
    (hn1 : ∀ r, net 1 r = Outcome.resp sl jl tl) (hdead : ¬ sl < 400)
    (hascii : asciiBytes (cid ++ ":" ++ csec) = some bs)
    (hn2 : ∀ r, net 2 r = Outcome.resp s2 j2 t2) (hs2 : s2 < 400)
    (htok : jsonGet j2 "access_token" = Except.ok tok)
    (hn3 : ∀ r, net 3 r = Outcome.resp s3 j3 t3) (h400 : 400 ≤ s3) (h600 : s3 < 600) :
    (CASEClient.get net path params ⟨Json.str cid, Json.str csec, tok0, []⟩).1 =
        Except.error (PyErr.httpError s3 t3)
    ∧ countResourceGets
        (CASEClient.get net path params ⟨Json.str cid, Json.str csec, tok0, []⟩).2.calls = 2
    ∧ (CASEClient.get net path params ⟨Json.str cid, Json.str csec, tok0, []⟩).2.calls =
        [resourceRequest path params tok0, bearerRequest tok0, tokenRequest bs,
         resourceRequest path params tok] := by
  rw [get_retry_eq net path params ⟨Json.str cid, Json.str csec, tok0, []⟩ cid csec bs tok
    s1 sl s2 s3 j1 jl j2 j3 t1 tl t2 t3 h401 hn0 hn1 hdead rfl rfl hascii hn2 hs2 htok hn3]
  simp only [finishGet, Resp.ok]
  rw [if_neg (show ¬ decide (s3 < 400) = true from by simp; omega)]
  simp only [raise_for_status]
  rw [if_pos (show 400 ≤ (⟨s3, j3, t3⟩ : Resp).status ∧ (⟨s3, j3, t3⟩ : Resp).status < 600
    from ⟨h400, h600⟩)]
  refine ⟨rfl, ?_, by simp⟩
  simp [countResourceGets, List.filter, isResourceGet_resourceRequest,
    isResourceGet_bearerRequest, isResourceGet_tokenRequest]

/-- Witness for C4 at the concrete `c4Net` scenario. -/
theorem c4_get_retry_failure_witness :
    (CASEClient.get c4Net "/p" [] ⟨Json.str "id", Json.str "sec", Json.str "tokA", []⟩).1 =
        Except.error (PyErr.httpError 401 "still denied")
    ∧ countResourceGets
        (CASEClient.get c4Net "/p" [] ⟨Json.str "id", Json.str "sec", Json.str "tokA", []⟩).2.calls = 2
    ∧ (CASEClient.get c4Net "/p" [] ⟨Json.str "id", Json.str "sec", Json.str "tokA", []⟩).2.calls =
        [resourceRequest "/p" [] (Json.str "tokA"), bearerRequest (Json.str "tokA"),
         tokenRequest [105, 100, 58, 115, 101, 99],
         resourceRequest "/p" [] (Json.str "tokB")] :=
  c4_get_retry_failure c4Net "/p" [] "id" "sec" (Json.str "tokA")
    [105, 100, 58, 115, 101, 99] (Json.str "tokB")
    401 404 200 401 Json.null Json.null (Json.obj [("access_token", Json.str "tokB")]) Json.null
    "unauthorized" "dead" "" "still denied"
    (Or.inl rfl) (fun _ => rfl) (fun _ => rfl) (by omega) rfl (fun _ => rfl) (by omega)
    rfl (fun _ => rfl) (by omega) (by omega)

/-- Claim C1: against a server serving pages of sizes [50, 50, 23, 0],
`get_documents` returns exactly the 123 records given by concatenating the
three non-empty pages in server order, pages in request order, with
exactly 4 network calls (at offsets 0, 50, 100, 150). -/
theorem c1_get_documents_pages (net : Net) (tok0 cid0 cs0 : Json) (p1 p2 p3 : List Json)
    (h1 : p1.length = 50) (h2 : p2.length = 50) (h3 : p3.length = 23)
    (hn0 : ∀ r, net 0 r = Outcome.resp 200 (Json.obj [("CFDocuments", Json.arr p1)]) "")
    (hn1 : ∀ r, net 1 r = Outcome.resp 200 (Json.obj [("CFDocuments", Json.arr p2)]) "")
    (hn2 : ∀ r, net 2 r = Outcome.resp 200 (Json.obj [("CFDocuments", Json.arr p3)]) "")
    (hn3 : ∀ r, net 3 r = Outcome.resp 200 (Json.obj [("CFDocuments", Json.arr [])]) "") :
    (CASEClient.get_documents net ⟨cid0, cs0, tok0, []⟩).1 = Except.ok (p1 ++ p2 ++ p3)
    ∧ (p1 ++ p2 ++ p3).length = 123
    ∧ (CASEClient.get_documents net ⟨cid0, cs0, tok0, []⟩).2.calls =
        [resourceRequest CFDocuments_endpoint (pageParams 0) tok0,
         resourceRequest CFDocuments_endpoint (pageParams 1) tok0,
         resourceRequest CFDocuments_endpoint (pageParams 2) tok0,
         resourceRequest CFDocuments_endpoint (pageParams 3) tok0] := by
  have ht1 : pyTruthy (Json.arr p1) = true := by
    cases p1
    · simp at h1
    · rfl
  have ht2 : pyTruthy (Json.arr p2) = true := by
    cases p2
    · simp at h2
    · rfl
  have ht3 : pyTruthy (Json.arr p3) = true := by
    cases p3
    · simp at h3
    · rfl
  have hrun : CASEClient.get_documents net ⟨cid0, cs0, tok0, []⟩ =
      (Except.ok (p1 ++ p2 ++ p3),
       ⟨cid0, cs0, tok0,
        [resourceRequest CFDocuments_endpoint (pageParams 0) tok0,
         resourceRequest CFDocuments_endpoint (pageParams 1) tok0,
         resourceRequest CFDocuments_endpoint (pageParams 2) tok0,
         resourceRequest CFDocuments_endpoint (pageParams 3) tok0]⟩) := by
    unfold CASEClient.get_documents
    rw [show max_requests = 9 + 1 from rfl]
    simp only [CASEClient.get_documents_loop]
    rw [get_ok_eq net _ _ _ 200 _ "" (by simpa using hn0) (by omega)]
    dsimp only
    simp only [jsonGet, lookupKvs, beq_self_eq_true, if_pos, ht1, listExtend, if_true]
    rw [get_ok_eq net _ _ _ 200 _ "" (by simpa using hn1) (by omega)]
    dsimp only
    simp only [jsonGet, lookupKvs, beq_self_eq_true, if_pos, ht2, listExtend, if_true]
    rw [get_ok_eq net _ _ _ 200 _ "" (by simpa using hn2) (by omega)]
    dsimp only
    simp only [jsonGet, lookupKvs, beq_self_eq_true, if_pos, ht3, listExtend, if_true]
    rw [get_ok_eq net _ _ _ 200 _ "" (by simpa using hn3) (by omega)]
    dsimp only
    simp [jsonGet, lookupKvs, pyTruthy, List.append_assoc]
  rw [hrun]
  refine ⟨rfl, by simp [h1, h2, h3], rfl⟩

/-- Witness for C1 at the concrete `c1Net` server. -/
theorem c1_get_documents_pages_witness :
    (CASEClient.get_documents c1Net ⟨Json.null, Json.null, Json.str "tk", []⟩).1 =
        Except.ok (c1Page 0 50 ++ c1Page 1 50 ++ c1Page 2 23)
    ∧ (c1Page 0 50 ++ c1Page 1 50 ++ c1Page 2 23).length = 123
    ∧ (CASEClient.get_documents c1Net ⟨Json.null, Json.null, Json.str "tk", []⟩).2.calls =
        [resourceRequest CFDocuments_endpoint (pageParams 0) (Json.str "tk"),
         resourceRequest CFDocuments_endpoint (pageParams 1) (Json.str "tk"),
         resourceRequest CFDocuments_endpoint (pageParams 2) (Json.str "tk"),
         resourceRequest CFDocuments_endpoint (pageParams 3) (Json.str "tk")] :=
  c1_get_documents_pages c1Net (Json.str "tk") Json.null Json.null
    (c1Page 0 50) (c1Page 1 50) (c1Page 2 23)
    (by simp [c1Page]) (by simp [c1Page]) (by simp [c1Page])
    (fun _ => rfl) (fun _ => rfl) (fun _ => rfl) (fun _ => rfl)

/-- The state after `http` always extends the log by exactly the request
issued, whatever the outcome. -/
theorem http_snd (net : Net) (req : Request) (st : St) :
    (http net req st).2 =
      ⟨st.client_id, st.client_secret, st.access_token, st.calls ++ [req]⟩ := by
  unfold http
  cases net st.calls.length req <;> rfl

/-- `finishGet` never issues a request: the state passes through. -/
theorem finishGet_snd (r : Resp) (st : St) : (finishGet r st).2 = st := by
  unfold finishGet
  split
  · rfl
  · cases raise_for_status r <;> rfl

/-- The state after `is_authenticated`: exactly one liveness request is
appended. -/
theorem is_authenticated_snd (net : Net) (st : St) :
    (CASEClient.is_authenticated net st).2 =
      ⟨st.client_id, st.client_secret, st.access_token,
       st.calls ++ [bearerRequest st.access_token]⟩ := by
  unfold CASEClient.is_authenticated
  rcases hh : http net (bearerRequest st.access_token) st with ⟨e, st1⟩
  have h2 := http_snd net (bearerRequest st.access_token) st
  rw [hh] at h2
  cases e
  · exact h2
  · dsimp only
    split <;> exact h2

/-- Splitting membership in a log extended by one request. -/
theorem mem_calls_snoc {req q : Request} {l : List Request} (h : req ∈ l ++ [q]) :
    req ∈ l ∨ req = q := by
  simpa using List.mem_append.mp h

/-- Every request issued by `obtain_access_token` is a token request. -/
theorem obtain_calls_mem (net : Net) (st : St) (req : Request)
    (h : req ∈ (CASEClient.obtain_access_token net st).2.calls) :
    req ∈ st.calls ∨ ∃ bs, req = tokenRequest bs := by
  unfold CASEClient.obtain_access_token at h
  split at h
  case h_2 => exact Or.inl h
  case h_1 cid csec =>
    dsimp only at h
    split at h
    · exact Or.inl h
    · rename_i bs _
      rcases hh : http net (tokenRequest bs) st with ⟨e, st1⟩
      rw [hh] at h
      have hs1 : st1 = ⟨st.client_id, st.client_secret, st.access_token,
          st.calls ++ [tokenRequest bs]⟩ := by
        have h2 := http_snd net (tokenRequest bs) st
        rw [hh] at h2
        exact h2
      have base : req ∈ st1.calls → req ∈ st.calls ∨ ∃ b, req = tokenRequest b := by
        intro hm
        rw [hs1] at hm
        rcases mem_calls_snoc hm with hm | hm
        · exact Or.inl hm
        · exact Or.inr ⟨bs, hm⟩
      cases e with
      | error e => exact base h
      | ok r =>
        dsimp only at h
        split at h
        · split at h
          · exact base h
          · exact base h
        · exact base h

/-- Every request issued by one `get` call is either a resource request
for the same path and params (initial or retried, possibly with another
token), a liveness request, or a token request. -/
theorem get_calls_mem (net : Net) (path : String) (params : List (String × String))
    (st : St) (req : Request)
    (h : req ∈ (CASEClient.get net path params st).2.calls) :
    req ∈ st.calls ∨ (∃ tk, req = resourceRequest path params tk) ∨
      (∃ tk, req = bearerRequest tk) ∨ (∃ bs, req = tokenRequest bs) := by
  unfold CASEClient.get at h
  rcases h0 : http net (resourceRequest path params st.access_token) st with ⟨e0, st1⟩
  rw [h0] at h
  have hs1 : st1 = ⟨st.client_id, st.client_secret, st.access_token,
      st.calls ++ [resourceRequest path params st.access_token]⟩ := by
    have h2 := http_snd net (resourceRequest path params st.access_token) st
    rw [h0] at h2
    exact h2
  have base1 : req ∈ st1.calls →
      req ∈ st.calls ∨ (∃ tk, req = resourceRequest path params tk) ∨
        (∃ tk, req = bearerRequest tk) ∨ (∃ bs, req = tokenRequest bs) := by
    intro hm
    rw [hs1] at hm
    rcases mem_calls_snoc hm with hm | hm
    · exact Or.inl hm
    · exact Or.inr (Or.inl ⟨st.access_token, hm⟩)
  cases e0 with
  | error e => exact base1 h
  | ok r =>
    dsimp only at h
    split at h
    · rcases h1 : CASEClient.is_authenticated net st1 with ⟨e1, st2⟩
      rw [h1] at h
      have hs2 : st2 = ⟨st1.client_id, st1.client_secret, st1.access_token,
          st1.calls ++ [bearerRequest st1.access_token]⟩ := by
        have h2 := is_authenticated_snd net st1
        rw [h1] at h2
        exact h2
      have base2 : req ∈ st2.calls →
          req ∈ st.calls ∨ (∃ tk, req = resourceRequest path params tk) ∨
            (∃ tk, req = bearerRequest tk) ∨ (∃ bs, req = tokenRequest bs) := by
        intro hm
        rw [hs2] at hm
        rcases mem_calls_snoc hm with hm | hm
        · exact base1 hm
        · exact Or.inr (Or.inr (Or.inl ⟨st1.access_token, hm⟩))
      cases e1 with
      | error e => exact base2 h
      | ok live =>
        dsimp only at h
        split at h
        · rw [finishGet_snd] at h
          exact base2 h
        · rcases h2 : CASEClient.obtain_access_token net st2 with ⟨e2, st3⟩
          rw [h2] at h
          have base3 : req ∈ st3.calls →
              req ∈ st.calls ∨ (∃ tk, req = resourceRequest path params tk) ∨
                (∃ tk, req = bearerRequest tk) ∨ (∃ bs, req = tokenRequest bs) := by
            intro hm
            have h3 := obtain_calls_mem net st2 req (by rw [h2]; exact hm)
            rcases h3 with h3 | ⟨bs, h3⟩
            · exact base2 h3
            · exact Or.inr (Or.inr (Or.inr ⟨bs, h3⟩))
          cases e2 with
          | error e => exact base3 h
          | ok u =>
            dsimp only at h
            rcases h4 : http net (resourceRequest path params st3.access_token) st3
              with ⟨e3, st4⟩
            rw [h4] at h
            have hs4 : st4 = ⟨st3.client_id, st3.client_secret, st3.access_token,
                st3.calls ++ [resourceRequest path params st3.access_token]⟩ := by
              have h5 := http_snd net (resourceRequest path params st3.access_token) st3
              rw [h4] at h5
              exact h5
            have base4 : req ∈ st4.calls →
                req ∈ st.calls ∨ (∃ tk, req = resourceRequest path params tk) ∨
                  (∃ tk, req = bearerRequest tk) ∨ (∃ bs, req = tokenRequest bs) := by
              intro hm
              rw [hs4] at hm
              rcases mem_calls_snoc hm with hm | hm
              · exact base3 hm
              · exact Or.inr (Or.inl ⟨st3.access_token, hm⟩)
            cases e3 with
            | error e => exact base4 h
            | ok r2 =>
              dsimp only at h
              rw [finishGet_snd] at h
              exact base4 h
    · rw [finishGet_snd] at h
      exact base1 h

/-- Every request issued by the pagination loop started at `counter` with
`fuel` remaining iterations is a page request for some page index `c` with
`counter ≤ c < counter + fuel` (with some token), a liveness request, or a
token request. -/
theorem get_documents_loop_calls_mem (net : Net) :
    ∀ fuel counter docs st req,
      req ∈ (CASEClient.get_documents_loop net docs counter fuel st).2.calls →
      req ∈ st.calls ∨
        (∃ c tk, counter ≤ c ∧ c < counter + fuel ∧
          req = resourceRequest CFDocuments_endpoint (pageParams c) tk) ∨
        (∃ tk, req = bearerRequest tk) ∨ (∃ bs, req = tokenRequest bs) := by
  intro fuel
  induction fuel with
  | zero =>
    intro counter docs st req h
    exact Or.inl h
  | succ f ih =>
    intro counter docs st req h
    unfold CASEClient.get_documents_loop at h
    rcases hg : CASEClient.get net CFDocuments_endpoint (pageParams counter) st
      with ⟨eg, st1⟩
    rw [hg] at h
    have base1 : req ∈ st1.calls →
        req ∈ st.calls ∨
          (∃ c tk, counter ≤ c ∧ c < counter + (f + 1) ∧
            req = resourceRequest CFDocuments_endpoint (pageParams c) tk) ∨
          (∃ tk, req = bearerRequest tk) ∨ (∃ bs, req = tokenRequest bs) := by
      intro hm
      have h2 := get_calls_mem net CFDocuments_endpoint (pageParams counter) st req
        (by rw [hg]; exact hm)
      rcases h2 with h2 | ⟨tk, h2⟩ | h2 | h2
      · exact Or.inl h2
      · exact Or.inr (Or.inl ⟨counter, tk, le_refl _, by omega, h2⟩)
      · exact Or.inr (Or.inr (Or.inl h2))
      · exact Or.inr (Or.inr (Or.inr h2))
    cases eg with
    | error e => exact base1 h
    | ok data =>
      dsimp only at h
      split at h
      · exact base1 h
      · split at h
        · split at h
          · exact base1 h
          · have h2 := ih (counter + 1) _ st1 req h
            rcases h2 with h2 | ⟨c, tk, hc1, hc2, h2⟩ | h2 | h2
            · exact base1 h2
            · exact Or.inr (Or.inl ⟨c, tk, by omega, by omega, h2⟩)
            · exact Or.inr (Or.inr (Or.inl h2))
            · exact Or.inr (Or.inr (Or.inr h2))
        · exact base1 h

/-- Full-pages run of the pagination loop: when every page is full (and
every response well-formed), the loop consumes all its fuel, returning the
concatenation of one page per iteration and issuing exactly one page
request per iteration. -/
theorem get_documents_loop_full_eq (net : Net) (pages : Nat → List Json)
    (hnet : ∀ n r, net n r =
      Outcome.resp 200 (Json.obj [("CFDocuments", Json.arr (pages n))]) "")
    (hne : ∀ n, pages n ≠ []) :
    ∀ fuel counter docs st,
      CASEClient.get_documents_loop net docs counter fuel st =
        (Except.ok (docs ++ ((List.range' st.calls.length fuel).map pages).flatten),
         ⟨st.client_id, st.client_secret, st.access_token,
          st.calls ++ (List.range' counter fuel).map
            (fun c => resourceRequest CFDocuments_endpoint (pageParams c)
              st.access_token)⟩) := by
  intro fuel
  induction fuel with
  | zero =>
    intro counter docs st
    simp [CASEClient.get_documents_loop]
  | succ f ih =>
    intro counter docs st
    unfold CASEClient.get_documents_loop
    rw [get_ok_eq net _ _ st 200 _ "" (fun r => hnet st.calls.length r) (by omega)]
    dsimp only
    simp only [jsonGet, lookupKvs, beq_self_eq_true, if_pos, listExtend]
    have htr : pyTruthy (Json.arr (pages st.calls.length)) = true := by
      have hq := hne st.calls.length
      cases hp : pages st.calls.length
      · exact absurd hp hq
      · rfl
    rw [if_pos htr]
    rw [ih (counter + 1) (docs ++ pages st.calls.length) _]
    simp [List.range'_succ, List.append_assoc]

/-- Claim C2: the paginator issues page requests only for page indices
below `max_pages = max_requests = 10` whatever the server does (so it
never loops unboundedly), and against a server always returning 50 full
records it makes exactly 10 page requests and returns exactly 500
records. -/
theorem c2_paginator_bounded :
    (∀ net tok req,
      req ∈ (CASEClient.get_documents net (initSt tok)).2.calls →
      isResourceGet req = true →
      ∃ c, c < max_requests ∧ req.url = buildUrl CFDocuments_endpoint (pageParams c))
    ∧ (∀ (pages : Nat → List Json), (∀ n, (pages n).length = 50) →
        ∀ net tok, (∀ n r, net n r =
            Outcome.resp 200 (Json.obj [("CFDocuments", Json.arr (pages n))]) "") →
          (CASEClient.get_documents net (initSt tok)).1 =
            Except.ok (((List.range' 0 max_requests).map pages).flatten)
          ∧ (((List.range' 0 max_requests).map pages).flatten).length = 500
          ∧ (CASEClient.get_documents net (initSt tok)).2.calls.length = 10) := by
  constructor
  · intro net tok req h hres
    have h2 := get_documents_loop_calls_mem net max_requests 0 [] (initSt tok) req h
    rcases h2 with h2 | ⟨c, tk, _, hc2, h2⟩ | ⟨tk, h2⟩ | ⟨bs, h2⟩
    · exact absurd h2 (List.not_mem_nil req)
    · exact ⟨c, by omega, by rw [h2]; rfl⟩
    · rw [h2, isResourceGet_bearerRequest] at hres
      exact absurd hres (by simp)
    · rw [h2, isResourceGet_tokenRequest] at hres
      exact absurd hres (by simp)
  · intro pages hlen net tok hnet
    have hne : ∀ n, pages n ≠ [] := by
      intro n he
      have h5 := hlen n
      rw [he] at h5
      simp at h5
    have hrun := get_documents_loop_full_eq net pages hnet hne max_requests 0 [] (initSt tok)
    refine ⟨?_, ?_, ?_⟩
    · unfold CASEClient.get_documents
      rw [hrun]
      simp [initSt]
    · rw [show List.range' 0 max_requests = [0, 1, 2, 3, 4, 5, 6, 7, 8, 9] from rfl]
      simp [List.flatten, hlen]
    · unfold CASEClient.get_documents
      rw [hrun]
      simp [initSt, List.length_range', max_requests]

/-- Witness for C2: the first page request of the always-full run is a
page request with index below the bound, and the full-pages run returns
500 records in 10 calls. -/
theorem c2_paginator_bounded_witness :
    (∃ c, c < max_requests ∧
      (resourceRequest CFDocuments_endpoint (pageParams 0) (Json.str "tk")).url =
        buildUrl CFDocuments_endpoint (pageParams c))
    ∧ ((CASEClient.get_documents c2Net (initSt (Json.str "tk"))).1 =
          Except.ok (((List.range' 0 max_requests).map
            (fun _ => List.replicate 50 (Json.num 1))).flatten)
       ∧ (((List.range' 0 max_requests).map
            (fun _ => List.replicate 50 (Json.num 1))).flatten).length = 500
       ∧ (CASEClient.get_documents c2Net (initSt (Json.str "tk"))).2.calls.length = 10) :=
  ⟨c2_paginator_bounded.1 c2Net (Json.str "tk")
      (resourceRequest CFDocuments_endpoint (pageParams 0) (Json.str "tk"))
      (by decide) rfl,
   c2_paginator_bounded.2 (fun _ => List.replicate 50 (Json.num 1)) (fun _ => by simp)
      c2Net (Json.str "tk") (fun _ _ => rfl)⟩

/-- The result value of `finishGet` depends only on the response. -/
theorem finishGet_fst (r : Resp) (st st' : St) :
    (finishGet r st).1 = (finishGet r st').1 := by
  unfold finishGet
  split
  · rfl
  · cases raise_for_status r <;> rfl

/-- Under a stateless server, a `get` whose URL draws a 401/403 can never
return a value: the liveness probe either validates the token (hard
failure), or the refreshed retry hits the same URL and draws the same
401/403 (hard failure); any transport or refresh error also propagates. -/
theorem stateless_get_401_not_ok (server : String → String → Outcome) (path : String)
    (params : List (String × String)) (st : St) (s : Nat) (b : Json) (t : String)
    (hresp : server "GET" (buildUrl path params) = Outcome.resp s b t)
    (h401 : s = 401 ∨ s = 403) (j : Json) :
    (CASEClient.get (statelessNet server) path params st).1 ≠ Except.ok j := by
  have hfin : ∀ stx : St, (finishGet ⟨s, b, t⟩ stx).1 =
      Except.error (PyErr.httpError s t) := by
    intro stx
    unfold finishGet raise_for_status
    rcases h401 with rfl | rfl <;> simp [Resp.ok]
  unfold CASEClient.get
  have hhttp : ∀ stx : St, ∀ tk : Json,
      http (statelessNet server) (resourceRequest path params tk) stx =
        (Except.ok ⟨s, b, t⟩, ⟨stx.client_id, stx.client_secret, stx.access_token,
          stx.calls ++ [resourceRequest path params tk]⟩) := by
    intro stx tk
    unfold http statelessNet resourceRequest
    rw [show server "GET" (buildUrl path params) = Outcome.resp s b t from hresp]
  rw [hhttp st st.access_token]
  dsimp only
  rw [if_pos h401]
  rcases h1 : CASEClient.is_authenticated (statelessNet server) _ with ⟨e1, st2⟩
  cases e1 with
  | error e => simp
  | ok live =>
    dsimp only
    by_cases hl : live
    · rw [if_pos hl, hfin]
      simp
    · rw [if_neg hl]
      rcases h2 : CASEClient.obtain_access_token (statelessNet server) st2 with ⟨e2, st3⟩
      cases e2 with
      | error e => simp
      | ok u =>
        dsimp only
        rw [hhttp st3 st3.access_token]
        dsimp only
        rw [hfin]
        simp

/-- Under a stateless server, the value returned by a successful `get`
does not depend on the starting client state. -/
theorem stateless_get_ok (server : String → String → Outcome) (path : String)
    (params : List (String × String)) (st st' : St) (j : Json)
    (h : (CASEClient.get (statelessNet server) path params st).1 = Except.ok j) :
    (CASEClient.get (statelessNet server) path params st').1 = Except.ok j := by
  cases hresp : server "GET" (buildUrl path params) with
  | transport =>
    exfalso
    have hhttp : http (statelessNet server) (resourceRequest path params st.access_token) st =
        (Except.error PyErr.transportError, ⟨st.client_id, st.client_secret, st.access_token,
          st.calls ++ [resourceRequest path params st.access_token]⟩) := by
      unfold http statelessNet resourceRequest
      rw [show server "GET" (buildUrl path params) = Outcome.transport from hresp]
    unfold CASEClient.get at h
    rw [hhttp] at h
    simp at h
  | resp s b t =>
    by_cases h401 : s = 401 ∨ s = 403
    · exact absurd h (stateless_get_401_not_ok server path params st s b t hresp h401 j)
    · have hhttp : ∀ stx : St, ∀ tk : Json,
          http (statelessNet server) (resourceRequest path params tk) stx =
            (Except.ok ⟨s, b, t⟩, ⟨stx.client_id, stx.client_secret, stx.access_token,
              stx.calls ++ [resourceRequest path params tk]⟩) := by
        intro stx tk
        unfold http statelessNet resourceRequest
        rw [show server "GET" (buildUrl path params) = Outcome.resp s b t from hresp]
      unfold CASEClient.get at h ⊢
      rw [hhttp st st.access_token] at h
      rw [hhttp st' st'.access_token]
      dsimp only at h ⊢
      rw [if_neg h401] at h ⊢
      rw [finishGet_fst _ _
        ⟨st.client_id, st.client_secret, st.access_token,
         st.calls ++ [resourceRequest path params st.access_token]⟩]
      exact h

/-- Under a stateless server, the value returned by a successful
pagination loop does not depend on the starting client state. -/
theorem stateless_loop_ok (server : String → String → Outcome) :
    ∀ fuel counter docs (st st' : St) res,
      (CASEClient.get_documents_loop (statelessNet server) docs counter fuel st).1 =
        Except.ok res →
      (CASEClient.get_documents_loop (statelessNet server) docs counter fuel st').1 =
        Except.ok res := by
  intro fuel
  induction fuel with
  | zero =>
    intro counter docs st st' res h
    exact h
  | succ f ih =>
    intro counter docs st st' res h
    unfold CASEClient.get_documents_loop at h ⊢
    rcases hg : CASEClient.get (statelessNet server) CFDocuments_endpoint
      (pageParams counter) st with ⟨eg, st1⟩
    rw [hg] at h
    cases eg with
    | error e => simp at h
    | ok data =>
      rcases hg' : CASEClient.get (statelessNet server) CFDocuments_endpoint
        (pageParams counter) st' with ⟨eg', st1'⟩
      have hok' : eg' = Except.ok data := by
        have h2 := stateless_get_ok server CFDocuments_endpoint (pageParams counter)
          st st' data (by rw [hg])
        rw [hg'] at h2
        exact h2
      subst hok'
      dsimp only at h ⊢
      rcases hj : jsonGet data "CFDocuments" with e | chunk
      · rw [hj] at h
        simp at h
      · rw [hj] at h
        dsimp only at h
        dsimp only
        by_cases ht : pyTruthy chunk = true
        · rw [if_pos ht] at h
          rw [if_pos ht]
          rcases hx : listExtend docs chunk with e | docs2
          · rw [hx] at h
            simp at h
          · rw [hx] at h
            dsimp only at h
            dsimp only
            exact ih (counter + 1) docs2 st1 st1' res h
        · rw [if_neg ht] at h
          rw [if_neg ht]
          exact h

/-- Claim C9: against a fixed, stateless server dataset (responses a
function of method and URL only), any two runs of `get_documents` that
return a value return the same ordered record list — in particular a
second call after a first successful one yields identical results. -/
theorem c9_get_documents_deterministic (server : String → String → Outcome)
    (st st' : St) (docs : List Json)
    (h : (CASEClient.get_documents (statelessNet server) st).1 = Except.ok docs) :
    (CASEClient.get_documents (statelessNet server) st').1 = Except.ok docs :=
  stateless_loop_ok server max_requests 0 [] st st' docs h

/-- Witness for C9: the one-page dataset server, run from the initial
state and from the state the first run left behind. -/
theorem c9_get_documents_deterministic_witness :
    (CASEClient.get_documents (statelessNet c9Server)
      (CASEClient.get_documents (statelessNet c9Server) (initSt (Json.str "tk"))).2).1 =
      Except.ok [Json.num 5] :=
  c9_get_documents_deterministic c9Server (initSt (Json.str "tk"))
    (CASEClient.get_documents (statelessNet c9Server) (initSt (Json.str "tk"))).2
    [Json.num 5] rfl
